import Mathlib

/-!
Verification of the reservations platform core (src/reservation-api/server.js).

The store is modelled as the list of persisted booking rows, in insertion
order. Cancellation deletes rows, so "non-cancelled reservation" coincides
with "row present in the store". Each HTTP handler is embedded as a pure
function over the store:

* `computeAvailable` — the slot filter of the GET /api/slots handler;
* `listBookings`     — the select of GET /api/bookings/:date/:resource;
* `reserve`          — the check-then-insert of POST /api/bookings, with the
  `maybeSingle` existence probe modelled by `checkTriple` (errors when more
  than one row matches, as the supabase call does);
* `cancel`           — the delete of DELETE /api/bookings/:id, with a Boolean
  flag standing for collaborator failure of the delete call.

Fresh row identifiers (assigned by the database on insert) are passed in
explicitly as a `Nat` counter.
-/

structure Reservation where
  id : Nat
  resourceId : String
  date : String
  slot : String
  user : String
deriving DecidableEq, Repr

/-- The module-level constant ALL_TIME_SLOTS of server.js. -/
def ALL_TIME_SLOTS : List String :=
  ["09:00", "09:30", "10:00", "10:30", "11:00", "11:30",
   "13:00", "13:30", "14:00", "14:30", "15:00", "15:30",
   "16:00", "16:30", "17:00"]

/-- The equality filters `.eq('resourceId', _).eq('date', _).eq('slot', _)`
used by the existence probe of POST /api/bookings. -/
def matchesTriple (rid d s : String) (r : Reservation) : Bool :=
  r.resourceId == rid && r.date == d && r.slot == s

/-- Number of stored rows matching a (resourceId, date, slot) triple. -/
def matchCount (store : List Reservation) (rid d s : String) : Nat :=
  (store.filter (matchesTriple rid d s)).length

/-- GET /api/slots, line 49: `ALL_TIME_SLOTS.filter(slot => !bookedSlots.includes(slot))`,
abstracted over the full slot list as the spec's `computeAvailable`. -/
def computeAvailable (allSlots bookedSlots : List String) : List String :=
  allSlots.filter (fun s => !(bookedSlots.contains s))

/-- GET /api/bookings/:date/:resource: select every row whose date and
resourceId match. -/
def listBookings (store : List Reservation) (d rid : String) : List Reservation :=
  store.filter (fun r => r.date == d && r.resourceId == rid)

/-- Outcome of the `.maybeSingle()` existence probe. -/
inductive CheckOutcome where
  | found (r : Reservation)
  | absent
  | err
deriving DecidableEq, Repr

/-- The existence probe of POST /api/bookings (lines 74-80): select rows
matching the triple with `.maybeSingle()`, which yields no row, the single
row, or an error when several rows match. -/
def checkTriple (store : List Reservation) (rid d s : String) : CheckOutcome :=
  match store.filter (matchesTriple rid d s) with
  | [] => .absent
  | [r] => .found r
  | _ => .err

inductive ReserveResult where
  | created (r : Reservation)
  | conflict
  | storeFailure
deriving DecidableEq, Repr

/-- POST /api/bookings (lines 71-96): probe for an existing row; on probe
error respond 500 (`storeFailure`); if a row exists respond 409
(`conflict`); otherwise insert the new row and respond 201 (`created`). -/
def reserve (store : List Reservation) (rid d s u : String) (fresh : Nat) :
    ReserveResult × List Reservation :=
  match checkTriple store rid d s with
  | .err => (.storeFailure, store)
  | .found _ => (.conflict, store)
  | .absent =>
      (.created ⟨fresh, rid, d, s, u⟩, store ++ [⟨fresh, rid, d, s, u⟩])

inductive CancelResult where
  | success
  | storeError
deriving DecidableEq, Repr

/-- DELETE /api/bookings/:id (lines 98-107): delete every row with the given
id and report success; the Boolean flag models the collaborator failing the
delete call, in which case the handler responds 500 (`storeError`). -/
def cancel (storeFails : Bool) (store : List Reservation) (i : Nat) :
    CancelResult × List Reservation :=
  match storeFails with
  | true => (.storeError, store)
  | false => (.success, store.filter (fun r => r.id != i))

/-- A single-writer operation against the ledger. -/
inductive Op where
  | reserveOp (rid d s u : String)
  | cancelOp (i : Nat)

/-- Execute one operation on (store, fresh-id counter), one at a time. -/
def applyOp (st : List Reservation × Nat) (op : Op) : List Reservation × Nat :=
  match op with
  | .reserveOp rid d s u => ((reserve st.1 rid d s u st.2).2, st.2 + 1)
  | .cancelOp i => ((cancel false st.1 i).2, st.2)

/-- Execute a sequence of single-writer operations. -/
def runOps (ops : List Op) (st : List Reservation × Nat) : List Reservation × Nat :=
  ops.foldl applyOp st

/-- Invariant I1: at most one stored (non-cancelled) reservation per
(resourceId, date, slot) triple. -/
def I1 (store : List Reservation) : Prop :=
  ∀ rid d s, matchCount store rid d s ≤ 1

/-- Serialized execution of a batch of reserve calls for one triple: each
call's check and insert complete before the next call starts. -/
def serialReserves (store : List Reservation) (rid d s : String)
    (users : List String) (fresh : Nat) : List ReserveResult × List Reservation :=
  match users with
  | [] => ([], store)
  | u :: rest =>
      let step := reserve store rid d s u fresh
      let tail := serialReserves step.2 rid d s rest (fresh + 1)
      (step.1 :: tail.1, tail.2)

def isCreated : ReserveResult → Bool
  | .created _ => true
  | _ => false

/-- Progress of one in-flight reserve call: it has not yet probed the store,
has probed but not yet acted on the outcome, or has finished. -/
inductive CallPhase where
  | ready
  | checked (c : CheckOutcome)
  | finished (r : ReserveResult)
deriving DecidableEq, Repr

/-- State of several concurrent reserve calls for one triple: the shared
store, the database id counter, and each call's booker name and phase. -/
structure RaceState where
  store : List Reservation
  nextId : Nat
  calls : List (String × CallPhase)
deriving DecidableEq, Repr

/-- One store operation of call `i`: its existence probe, or the action the
probe outcome dictates (insert on absent, 409 on found, 500 on error). -/
def stepCall (rid d s : String) (st : RaceState) (i : Nat) : RaceState :=
  match st.calls[i]? with
  | none => st
  | some (u, ph) =>
    match ph with
    | .ready =>
        { st with calls := st.calls.set i (u, .checked (checkTriple st.store rid d s)) }
    | .checked .err =>
        { st with calls := st.calls.set i (u, .finished .storeFailure) }
    | .checked (.found _) =>
        { st with calls := st.calls.set i (u, .finished .conflict) }
    | .checked .absent =>
        { store := st.store ++ [⟨st.nextId, rid, d, s, u⟩],
          nextId := st.nextId + 1,
          calls := st.calls.set i (u, .finished (.created ⟨st.nextId, rid, d, s, u⟩)) }
    | .finished _ => st

/-- Run an interleaving: the schedule names, one store operation at a time,
which call acts next. -/
def runSchedule (rid d s : String) (sched : List Nat) (st : RaceState) : RaceState :=
  sched.foldl (stepCall rid d s) st

/-- Number of calls that finished successfully (201 created). -/
def successCount (st : RaceState) : Nat :=
  (st.calls.filter (fun c =>
    match c.2 with
    | .finished (.created _) => true
    | _ => false)).length

/-- Concrete values used by the evaluation theorems below. -/
def dRid : String := "R1"

def dDate : String := "2025-06-01"

def dSlot : String := "09:00"

def dAlice : String := "Alice"

def dBob : String := "Bob"

def emptyUser : String := ""

def demoRes : Reservation := ⟨1, dRid, dDate, dSlot, dAlice⟩

def dGhostRid : String := "RX"

def dBadSlot : String := "23:00"

def dOtherDate : String := "2025-06-02"

/-! ## Helper lemmas -/

lemma matchCount_nil (rid d s : String) : matchCount [] rid d s = 0 := rfl

lemma checkTriple_cases (store : List Reservation) (rid d s : String) :
    (matchCount store rid d s = 0 ∧ checkTriple store rid d s = .absent) ∨
    (matchCount store rid d s = 1 ∧ ∃ r, checkTriple store rid d s = .found r) ∨
    (2 ≤ matchCount store rid d s ∧ checkTriple store rid d s = .err) := by
  unfold matchCount checkTriple
  rcases hf : store.filter (matchesTriple rid d s) with _ | ⟨r, _ | ⟨r2, t⟩⟩
  · exact Or.inl ⟨by simp, rfl⟩
  · exact Or.inr (Or.inl ⟨by simp, r, rfl⟩)
  · exact Or.inr (Or.inr ⟨by simp, rfl⟩)

lemma reserve_of_count_zero (store : List Reservation) (rid d s u : String) (fresh : Nat)
    (h : matchCount store rid d s = 0) :
    reserve store rid d s u fresh =
      (.created ⟨fresh, rid, d, s, u⟩, store ++ [⟨fresh, rid, d, s, u⟩]) := by
  rcases checkTriple_cases store rid d s with ⟨_, hc⟩ | ⟨h1, _, hc⟩ | ⟨h2, hc⟩
  · simp [reserve, hc]
  · omega
  · omega

lemma reserve_of_count_one (store : List Reservation) (rid d s u : String) (fresh : Nat)
    (h : matchCount store rid d s = 1) :
    reserve store rid d s u fresh = (.conflict, store) := by
  rcases checkTriple_cases store rid d s with ⟨h0, hc⟩ | ⟨_, r, hc⟩ | ⟨h2, hc⟩
  · omega
  · simp [reserve, hc]
  · omega

lemma reserve_of_count_ge_two (store : List Reservation) (rid d s u : String) (fresh : Nat)
    (h : 2 ≤ matchCount store rid d s) :
    reserve store rid d s u fresh = (.storeFailure, store) := by
  rcases checkTriple_cases store rid d s with ⟨h0, hc⟩ | ⟨h1, _, hc⟩ | ⟨_, hc⟩
  · omega
  · omega
  · simp [reserve, hc]

lemma matchCount_append (s1 s2 : List Reservation) (rid d s : String) :
    matchCount (s1 ++ s2) rid d s = matchCount s1 rid d s + matchCount s2 rid d s := by
  simp [matchCount, List.filter_append]

lemma matchCount_new_self (fresh : Nat) (rid d s u : String) :
    matchCount [⟨fresh, rid, d, s, u⟩] rid d s = 1 := by
  simp [matchCount, matchesTriple]

lemma matchCount_new_other (fresh : Nat) (rid d s rid2 d2 s2 u : String)
    (hne : ¬(rid2 = rid ∧ d2 = d ∧ s2 = s)) :
    matchCount [⟨fresh, rid, d, s, u⟩] rid2 d2 s2 = 0 := by
  have hb : matchesTriple rid2 d2 s2 ⟨fresh, rid, d, s, u⟩ = false := by
    rw [Bool.eq_false_iff]
    intro hcontra
    simp only [matchesTriple, Bool.and_eq_true, beq_iff_eq] at hcontra
    exact hne ⟨hcontra.1.1.symm, hcontra.1.2.symm, hcontra.2.symm⟩
  simp [matchCount, List.filter_cons, hb]

lemma matchCount_filter_le (p : Reservation → Bool) (store : List Reservation)
    (rid d s : String) :
    matchCount (store.filter p) rid d s ≤ matchCount store rid d s := by
  unfold matchCount
  exact List.Sublist.length_le (List.Sublist.filter _ (List.filter_sublist store))

lemma I1_nil : I1 [] := by
  intro rid d s
  simp [matchCount]

lemma I1_singleton (r : Reservation) : I1 [r] := by
  intro rid d s
  rcases h : matchesTriple rid d s r with _ | _ <;>
    simp [matchCount, List.filter_cons, h]

lemma I1_reserve (store : List Reservation) (rid d s u : String) (fresh : Nat)
    (h : I1 store) : I1 (reserve store rid d s u fresh).2 := by
  rcases checkTriple_cases store rid d s with ⟨h0, hc⟩ | ⟨h1, r, hc⟩ | ⟨h2, hc⟩
  · rw [reserve_of_count_zero store rid d s u fresh h0]
    intro rid2 d2 s2
    rw [matchCount_append]
    by_cases heq : rid2 = rid ∧ d2 = d ∧ s2 = s
    · obtain ⟨e1, e2, e3⟩ := heq
      subst e1; subst e2; subst e3
      rw [h0, matchCount_new_self]
    · rw [matchCount_new_other fresh rid d s rid2 d2 s2 u heq]
      simpa using h rid2 d2 s2
  · rw [reserve_of_count_one store rid d s u fresh h1]
    exact h
  · rw [reserve_of_count_ge_two store rid d s u fresh h2]
    exact h

lemma I1_cancel (b : Bool) (store : List Reservation) (i : Nat)
    (h : I1 store) : I1 (cancel b store i).2 := by
  cases b
  · intro rid d s
    exact le_trans (matchCount_filter_le _ store rid d s) (h rid d s)
  · exact h

/-- C1: single-writer execution of any sequence of reserve and cancel
operations preserves Invariant I1 (at most one stored reservation per
(resourceId, date, slot) triple). Because the sequence is universally
quantified, the invariant holds after every prefix, i.e. after every
operation. -/
theorem invariant_I1_preserved (ops : List Op) (store : List Reservation) (fresh : Nat)
    (h : I1 store) : I1 (runOps ops (store, fresh)).1 := by
  induction ops generalizing store fresh with
  | nil => exact h
  | cons op rest ih =>
      cases op with
      | reserveOp rid d s u => exact ih _ _ (I1_reserve store rid d s u fresh h)
      | cancelOp i => exact ih _ _ (I1_cancel false store i h)

/-- C1 witness: the invariant holds concretely after a reserve followed by a
cancel, starting from the empty store. -/
theorem invariant_I1_preserved_witness :
    I1 (runOps [Op.reserveOp dRid dDate dSlot dAlice, Op.cancelOp 1] ([], 1)).1 :=
  invariant_I1_preserved [Op.reserveOp dRid dDate dSlot dAlice, Op.cancelOp 1] [] 1 I1_nil

/-- C3: `computeAvailable allSlots bookedSlots` is exactly `allSlots` minus
the booked slots: it is a sublist of `allSlots` (so order and multiplicity
come from `allSlots`), its members are precisely the members of `allSlots`
not in `bookedSlots`, it is all of `allSlots` when `bookedSlots` is empty,
and it is empty when `bookedSlots` covers `allSlots`. -/
theorem computeAvailable_complement (allSlots bookedSlots : List String) :
    List.Sublist (computeAvailable allSlots bookedSlots) allSlots ∧
    (∀ s, s ∈ computeAvailable allSlots bookedSlots ↔ s ∈ allSlots ∧ s ∉ bookedSlots) ∧
    (bookedSlots = [] → computeAvailable allSlots bookedSlots = allSlots) ∧
    ((∀ s ∈ allSlots, s ∈ bookedSlots) → computeAvailable allSlots bookedSlots = []) := by
  refine ⟨List.filter_sublist allSlots, ?_, ?_, ?_⟩
  · intro s
    simp [computeAvailable, List.mem_filter]
  · intro hb
    subst hb
    simp [computeAvailable]
  · intro hall
    rw [computeAvailable, List.filter_eq_nil_iff]
    intro s hs
    simp [hall s hs]

/-- C3 witness: with no booked slots all 15 labels are available, and when
every label is booked none is. -/
theorem computeAvailable_complement_witness :
    computeAvailable ALL_TIME_SLOTS [] = ALL_TIME_SLOTS ∧
    computeAvailable ALL_TIME_SLOTS ALL_TIME_SLOTS = [] :=
  ⟨(computeAvailable_complement ALL_TIME_SLOTS []).2.2.1 rfl,
   (computeAvailable_complement ALL_TIME_SLOTS ALL_TIME_SLOTS).2.2.2 (fun _ hs => hs)⟩

/-- C4: when the store satisfies Invariant I1 and some stored reservation
already matches the requested triple, reserve answers 409 conflict and
leaves the store exactly as it was (no insert happens). -/
theorem reserve_conflict_no_mutation (store : List Reservation) (rid d s u : String)
    (fresh : Nat) (hI : I1 store) (hex : ∃ r ∈ store, matchesTriple rid d s r = true) :
    reserve store rid d s u fresh = (.conflict, store) := by
  have hle := hI rid d s
  have hpos : 0 < matchCount store rid d s := by
    obtain ⟨r, hr, hm⟩ := hex
    exact List.length_pos_of_mem (List.mem_filter.mpr ⟨hr, hm⟩)
  exact reserve_of_count_one store rid d s u fresh (by omega)

/-- C4 witness: with Alice's booking stored, Bob's reserve for the same
triple is rejected with a conflict and the store is unchanged. -/
theorem reserve_conflict_no_mutation_witness :
    reserve [demoRes] dRid dDate dSlot dBob 2 = (.conflict, [demoRes]) :=
  reserve_conflict_no_mutation [demoRes] dRid dDate dSlot dBob 2 (I1_singleton demoRes)
    ⟨demoRes, by simp, by decide⟩

/-- C5 counterexample: the handler performs no validation of `user`. From
the empty store, a reserve request with an empty user name does not fail:
it creates and stores a reservation whose user field is empty, refuting
"reserve fails with ValidationError and no Reservation record is created". -/
theorem reserve_empty_user_creates_record :
    reserve [] dRid dDate dSlot emptyUser 1 =
      (.created ⟨1, dRid, dDate, dSlot, emptyUser⟩,
       [⟨1, dRid, dDate, dSlot, emptyUser⟩]) := rfl

/-- C5 amended: reserve performs no user validation; a request with an
empty user is treated like any other, and absent a conflict it succeeds,
creating a Reservation with an empty user field. -/
theorem reserve_no_user_validation (store : List Reservation) (rid d s : String)
    (fresh : Nat) (h : matchCount store rid d s = 0) :
    reserve store rid d s emptyUser fresh =
      (.created ⟨fresh, rid, d, s, emptyUser⟩,
       store ++ [⟨fresh, rid, d, s, emptyUser⟩]) :=
  reserve_of_count_zero store rid d s emptyUser fresh h

/-- C5 amended witness: concrete empty-user reserve from a store holding an
unrelated booking. -/
theorem reserve_no_user_validation_witness :
    reserve [⟨7, dRid, dDate, dSlot, dAlice⟩] dRid dDate dBob emptyUser 8 =
      (.created ⟨8, dRid, dDate, dBob, emptyUser⟩,
       [⟨7, dRid, dDate, dSlot, dAlice⟩, ⟨8, dRid, dDate, dBob, emptyUser⟩]) :=
  reserve_no_user_validation [⟨7, dRid, dDate, dSlot, dAlice⟩] dRid dDate dBob 8 (by decide)

/-- C9: reserve never consults any resource registry or the fixed slot
list. For any candidate registry, a request whose resourceId is outside the
registry or whose slot is not one of ALL_TIME_SLOTS is not rejected: absent
a conflict it succeeds and stores a reservation carrying the undefined
resource or slot (Invariant I2 is not enforced). -/
theorem reserve_ignores_catalog (registry : List String) (store : List Reservation)
    (rid d s u : String) (fresh : Nat)
    (_hcat : rid ∉ registry ∨ s ∉ ALL_TIME_SLOTS)
    (h0 : matchCount store rid d s = 0) :
    reserve store rid d s u fresh =
      (.created ⟨fresh, rid, d, s, u⟩, store ++ [⟨fresh, rid, d, s, u⟩]) :=
  reserve_of_count_zero store rid d s u fresh h0

/-- C9 witness: an unregistered resource with an off-catalog slot label is
accepted and stored. -/
theorem reserve_ignores_catalog_witness :
    reserve [] dGhostRid dDate dBadSlot dAlice 1 =
      (.created ⟨1, dGhostRid, dDate, dBadSlot, dAlice⟩,
       [⟨1, dGhostRid, dDate, dBadSlot, dAlice⟩]) :=
  reserve_ignores_catalog [dRid] [] dGhostRid dDate dBadSlot dAlice 1
    (Or.inr (by decide)) rfl

/-- C10: when the store already holds two or more reservations for the
requested triple (Invariant I1 already broken), the `maybeSingle` existence
probe itself errors, so reserve answers a 500 store-level failure rather
than 409 ConflictError, and the store is unchanged. -/
theorem reserve_duplicate_store_failure (store : List Reservation) (rid d s u : String)
    (fresh : Nat) (h : 2 ≤ matchCount store rid d s) :
    reserve store rid d s u fresh = (.storeFailure, store) :=
  reserve_of_count_ge_two store rid d s u fresh h

/-- C10 witness: with two stored duplicates of the triple, reserve fails at
the probe with a store failure. -/
theorem reserve_duplicate_store_failure_witness :
    reserve [demoRes, ⟨2, dRid, dDate, dSlot, dBob⟩] dRid dDate dSlot dBob 3 =
      (.storeFailure, [demoRes, ⟨2, dRid, dDate, dSlot, dBob⟩]) :=
  reserve_duplicate_store_failure [demoRes, ⟨2, dRid, dDate, dSlot, dBob⟩]
    dRid dDate dSlot dBob 3 (by decide)

/-- C6: after a successful cancel of reservation `r`, when every stored
reservation matching r's triple carries r's id (so the triple is freed by
the deletion), a subsequent reserve for the same triple succeeds and stores
a fresh reservation. -/
theorem cancel_then_reserve_succeeds (store : List Reservation) (r : Reservation)
    (u : String) (fresh : Nat) (_hmem : r ∈ store)
    (huniq : ∀ r2 ∈ store, matchesTriple r.resourceId r.date r.slot r2 = true → r2.id = r.id) :
    (cancel false store r.id).1 = .success ∧
    (reserve (cancel false store r.id).2 r.resourceId r.date r.slot u fresh).1 =
      .created ⟨fresh, r.resourceId, r.date, r.slot, u⟩ := by
  refine ⟨rfl, ?_⟩
  have h0 : matchCount (cancel false store r.id).2 r.resourceId r.date r.slot = 0 := by
    rw [matchCount, List.length_eq_zero, List.filter_eq_nil_iff]
    intro r2 hr2
    rw [cancel] at hr2
    simp only [List.mem_filter, bne_iff_ne, ne_eq] at hr2
    intro hm
    exact hr2.2 (huniq r2 hr2.1 hm)
  rw [reserve_of_count_zero _ _ _ _ u fresh h0]

/-- C6 witness: cancel Alice's stored booking, then Bob books the freed
triple successfully. -/
theorem cancel_then_reserve_succeeds_witness :
    (cancel false [demoRes] demoRes.id).1 = .success ∧
    (reserve (cancel false [demoRes] demoRes.id).2 demoRes.resourceId demoRes.date
        demoRes.slot dBob 2).1 =
      .created ⟨2, demoRes.resourceId, demoRes.date, demoRes.slot, dBob⟩ :=
  cancel_then_reserve_succeeds [demoRes] demoRes dBob 2 (by decide) (by decide)

/-- C7: cancel reports success whenever the delete collaborator does not
fail, for every id — including an id matching no stored reservation, whose
outcome (success, rows with that id removed, here none) is exactly that of
a real deletion; and the only failing outcome is a store error, which
occurs only on collaborator failure. -/
theorem cancel_success_semantics (store : List Reservation) (i : Nat) :
    (cancel false store i).1 = .success ∧
    ((∀ r ∈ store, r.id ≠ i) → cancel false store i = (.success, store)) ∧
    (∀ b : Bool, (cancel b store i).1 ≠ .success →
      b = true ∧ (cancel b store i).1 = .storeError) := by
  refine ⟨rfl, ?_, ?_⟩
  · intro h
    rw [cancel]
    rw [List.filter_eq_self.mpr]
    intro r hr
    simpa using h r hr
  · intro b hb
    cases b
    · exact absurd rfl hb
    · exact ⟨rfl, rfl⟩

/-- C7 witness: cancelling an id absent from the store succeeds and leaves
the store untouched, indistinguishable from a real deletion. -/
theorem cancel_success_semantics_witness :
    (cancel false [demoRes] 99).1 = .success ∧ cancel false [demoRes] 99 = (.success, [demoRes]) :=
  ⟨(cancel_success_semantics [demoRes] 99).1,
   (cancel_success_semantics [demoRes] 99).2.1 (by decide)⟩

/-- C8: listBookings returns exactly the stored (hence non-cancelled)
reservations whose date and resourceId match, as a sublist of the store (no
reordering, no duplication, no mutation of the store); it returns the empty
sequence rather than an error when nothing matches; and it never returns a
reservation deleted by a cancel. -/
theorem listBookings_characterization (store : List Reservation) (d rid : String) :
    List.Sublist (listBookings store d rid) store ∧
    (∀ r, r ∈ listBookings store d rid ↔ r ∈ store ∧ r.date = d ∧ r.resourceId = rid) ∧
    ((∀ r ∈ store, ¬(r.date = d ∧ r.resourceId = rid)) → listBookings store d rid = []) ∧
    (∀ i, ∀ r ∈ listBookings (cancel false store i).2 d rid, r.id ≠ i) := by
  refine ⟨List.filter_sublist store, ?_, ?_, ?_⟩
  · intro r
    simp [listBookings, List.mem_filter]
  · intro h
    rw [listBookings, List.filter_eq_nil_iff]
    intro r hr
    simpa using h r hr
  · intro i r hr
    rw [listBookings, cancel] at hr
    simp only [List.mem_filter, bne_iff_ne, ne_eq] at hr
    exact hr.1.2

/-- C8 witness: a date with no matching booking yields the empty list, and
after cancelling Alice's booking the listing for her triple no longer
contains it. -/
theorem listBookings_characterization_witness :
    listBookings [demoRes] dOtherDate dRid = [] ∧
    (demoRes ∈ listBookings (cancel false [demoRes] demoRes.id).2 dDate dRid → False) :=
  ⟨(listBookings_characterization [demoRes] dOtherDate dRid).2.2.1 (by decide),
   fun hmem =>
     (listBookings_characterization [demoRes] dDate dRid).2.2.2
       demoRes.id demoRes hmem rfl⟩

/-- Initial state of two concurrent reserve calls for the same triple
against the empty store. -/
def raceStart : RaceState := ⟨[], 1, [(dAlice, CallPhase.ready), (dBob, CallPhase.ready)]⟩

/-- C2 counterexample: under the interleaving in which both calls run their
existence probe before either inserts (schedule 0, 1, 0, 1), both concurrent
reserve calls for the same (resourceId, date, slot) succeed with 201 — two
calls succeed and neither receives ConflictError, refuting "at most one call
succeeds and every other call receives ConflictError" on the check-then-insert
code. -/
theorem race_two_reserves_both_succeed :
    successCount (runSchedule dRid dDate dSlot [0, 1, 0, 1] raceStart) = 2 ∧
    ¬ successCount (runSchedule dRid dDate dSlot [0, 1, 0, 1] raceStart) ≤ 1 := by
  decide

lemma serialReserves_all_conflict (rid d s : String) (users : List String) :
    ∀ (store : List Reservation) (fresh : Nat), matchCount store rid d s = 1 →
      serialReserves store rid d s users fresh =
        (users.map (fun _ => ReserveResult.conflict), store) := by
  induction users with
  | nil => intro store fresh _; rfl
  | cons u rest ih =>
      intro store fresh h
      have hstep := reserve_of_count_one store rid d s u fresh h
      simp only [serialReserves, hstep, List.map_cons]
      rw [ih store (fresh + 1) h]

lemma serialReserves_of_free (rid d s u : String) (rest : List String)
    (store : List Reservation) (fresh : Nat) (h : matchCount store rid d s = 0) :
    serialReserves store rid d s (u :: rest) fresh =
      (ReserveResult.created ⟨fresh, rid, d, s, u⟩ ::
         rest.map (fun _ => ReserveResult.conflict),
       store ++ [⟨fresh, rid, d, s, u⟩]) := by
  have hstep := reserve_of_count_zero store rid d s u fresh h
  have h1 : matchCount (store ++ [⟨fresh, rid, d, s, u⟩]) rid d s = 1 := by
    rw [matchCount_append, h, matchCount_new_self]
  simp only [serialReserves, hstep]
  rw [serialReserves_all_conflict rid d s rest _ (fresh + 1) h1]

/-- C2 amended: when the reserve calls for one triple are executed one at a
time (each call's check and insert complete before the next call starts) and
the store initially satisfies Invariant I1 for that triple, at most one call
succeeds and every non-succeeding call receives ConflictError. Under
arbitrary interleaving the original claim fails (see the counterexample). -/
theorem serialized_reserves_at_most_one_success (store : List Reservation)
    (rid d s : String) (users : List String) (fresh : Nat)
    (h : matchCount store rid d s ≤ 1) :
    ((serialReserves store rid d s users fresh).1.filter isCreated).length ≤ 1 ∧
    (∀ res ∈ (serialReserves store rid d s users fresh).1,
      isCreated res = false → res = .conflict) := by
  rcases Nat.le_one_iff_eq_zero_or_eq_one.mp h with h0 | h1
  · cases users with
    | nil =>
        refine ⟨by simp [serialReserves], ?_⟩
        intro res hres
        simp [serialReserves] at hres
    | cons u rest =>
        rw [serialReserves_of_free rid d s u rest store fresh h0]
        have hconfl : (rest.map (fun _ => ReserveResult.conflict)).filter isCreated = [] := by
          rw [List.filter_eq_nil_iff]
          intro a ha
          rcases List.mem_map.mp ha with ⟨_, _, rfl⟩
          simp [isCreated]
        constructor
        · simp [List.filter_cons, isCreated, hconfl]
        · intro res hres hfalse
          rcases List.mem_cons.mp hres with rfl | hmem
          · simp [isCreated] at hfalse
          · rcases List.mem_map.mp hmem with ⟨_, _, rfl⟩
            rfl
  · rw [serialReserves_all_conflict rid d s users store fresh h1]
    constructor
    · have : (users.map (fun _ => ReserveResult.conflict)).filter isCreated = [] := by
        rw [List.filter_eq_nil_iff]
        intro a ha
        rcases List.mem_map.mp ha with ⟨_, _, rfl⟩
        simp [isCreated]
      rw [this]
      simp
    · intro res hres _
      rcases List.mem_map.mp hres with ⟨_, _, rfl⟩
      rfl

/-- C2 amended witness: Alice and Bob booking the same triple one after the
other from the empty store — only one 201 is issued. -/
theorem serialized_reserves_at_most_one_success_witness :
    ((serialReserves [] dRid dDate dSlot [dAlice, dBob] 1).1.filter isCreated).length ≤ 1 :=
  (serialized_reserves_at_most_one_success [] dRid dDate dSlot [dAlice, dBob] 1 (by decide)).1
